import Mathlib

/-! Shallow embedding of the DQI / Clean-Status computation engine of the
Novartis Clinical Trial web application backend
(`src/backend/apps/core/management/commands/compute_metrics.py`), together
with the fact rows it reads (`apps/monitoring/models.py`,
`apps/safety/models.py`, `apps/medical_coding/models.py`) and the mart
records it writes (`apps/metrics/models.py`).

Numbers are modelled exactly over `ℚ` (the Python code mixes ints,
Django `Decimal` fields and floats; all values involved are decimal
fractions, represented here exactly).  Python's `round(x, 2)`
(round-half-to-even) is modelled by `round2`.
-/

namespace CleanTrial

/-- Python `round(x, ndigits=0)`: round half to even, as an integer. -/
def roundHalfEven (x : ℚ) : ℤ :=
  let f := ⌊x⌋
  let frac := x - (f : ℚ)
  if frac < 1/2 then f
  else if 1/2 < frac then f + 1
  else if f % 2 = 0 then f else f + 1

/-- Python `round(x, 2)` on an exact decimal value. -/
def round2 (x : ℚ) : ℚ := (roundHalfEven (x * 100) : ℚ) / 100

/-- Choices of `SAEDiscrepancy.resolution_status` (apps/safety/models.py). -/
inductive ResolutionStatus
  | Open
  | Pending
  | Resolved
  | Closed
deriving DecidableEq

/-- One `FACT_SAE_DISCREPANCY` row, keeping the field the claims inspect. -/
structure SAERow where
  resolution_status : ResolutionStatus
deriving DecidableEq

/-- One `FACT_QUERY` row (only `query_status` is read by the engine). -/
structure QueryRow where
  query_status : String
deriving DecidableEq

/-- One `FACT_NON_CONFORMANT_EVENT` row (only `status` is read). -/
structure NonConformantRow where
  status : String
deriving DecidableEq

/-- One `FACT_CODING_ITEM` row (only `coding_status` is read). -/
structure CodingItemRow where
  coding_status : String
deriving DecidableEq

/-- All fact rows of one subject, as the ORM queries in
`compute_metrics.py` see them.  `sdvRecords` / `piSigRecords` /
`edrrRecords` model the `.first()` lookups: the engine reads the first
row if any (`completion_percentage` resp. `total_open_issue_count`).
-/
structure SubjectFacts where
  missingVisitRows : List Unit
  missingPageRows : List Unit
  queryRows : List QueryRow
  nonConformantRows : List NonConformantRow
  saeRows : List SAERow
  sdvRecords : List ℚ
  piSigRecords : List ℚ
  codingRows : List CodingItemRow
  edrrRecords : List ℕ
deriving DecidableEq

/-- Models `MissingVisit.objects.filter(subject=subject).count()`. -/
def missingVisitsCount (f : SubjectFacts) : ℕ := f.missingVisitRows.length

/-- Models `MissingPage.objects.filter(subject=subject).count()`. -/
def missingPagesCount (f : SubjectFacts) : ℕ := f.missingPageRows.length

/-- Models `Query.objects.filter(subject=subject, query_status='Open').count()`. -/
def openQueriesCount (f : SubjectFacts) : ℕ :=
  (f.queryRows.filter (fun q => q.query_status == "Open")).length

/-- Models `NonConformantEvent.objects.filter(subject=subject, status='Open').count()`. -/
def nonConformantCount (f : SubjectFacts) : ℕ :=
  (f.nonConformantRows.filter (fun e => e.status == "Open")).length

/-- Models `SAEDiscrepancy.objects.filter(subject=subject).count()` — note:
no filter on `resolution_status`. -/
def saeDiscrepanciesCount (f : SubjectFacts) : ℕ := f.saeRows.length

/-- Models `sdv_record.completion_percentage if sdv_record else 0`. -/
def sdvPct (f : SubjectFacts) : ℚ := f.sdvRecords.head?.getD 0

/-- Models `pi_sig.completion_percentage if pi_sig else 0`. -/
def piPct (f : SubjectFacts) : ℚ := f.piSigRecords.head?.getD 0

/-- Models the count of the subject's Uncoded or Pending `CodingItem` rows. -/
def codingUncodedCount (f : SubjectFacts) : ℕ :=
  (f.codingRows.filter
    (fun c => c.coding_status == "Uncoded" || c.coding_status == "Pending")).length

/-- Models `edrr.total_open_issue_count if edrr else 0`. -/
def edrrOpenIssueCount (f : SubjectFacts) : ℕ := f.edrrRecords.head?.getD 0

/-- One entry of the structured `blockers_json` list. -/
structure Blocker where
  type : String
  count : ℚ
  severity : String
deriving DecidableEq

/-- The `MART_CLEAN_PATIENT_STATUS` record (apps/metrics/models.py). -/
structure CleanPatientStatus where
  is_clean : Bool
  has_missing_visits : Bool
  missing_visits_count : ℕ
  has_missing_pages : Bool
  missing_pages_count : ℕ
  has_open_queries : Bool
  open_queries_count : ℕ
  has_non_conformant : Bool
  non_conformant_count : ℕ
  has_sae_discrepancies : Bool
  sae_discrepancy_count : ℕ
  sdv_incomplete : Bool
  sdv_completion_pct : ℚ
  pi_signature_incomplete : Bool
  pi_signature_completion_pct : ℚ
  has_coding_backlog : Bool
  coding_uncoded_count : ℕ
  has_edrr_issues : Bool
  edrr_open_issue_count : ℕ
  blockers : List Blocker
deriving DecidableEq

/-- Body of `Command._compute_clean_status`'s per-subject loop
(compute_metrics.py lines 58–150): counts each blocker category,
evaluates the all-must-pass gate, and builds the blockers list.
-/
def compute_clean_status (f : SubjectFacts) : CleanPatientStatus :=
  let missing_visits := missingVisitsCount f
  let missing_pages := missingPagesCount f
  let open_queries := openQueriesCount f
  let non_conformant := nonConformantCount f
  let sae_discrepancies := saeDiscrepanciesCount f
  let sdv_pct := sdvPct f
  let sdv_incomplete : Bool := decide (sdv_pct < 100)
  let pi_pct := piPct f
  let pi_incomplete : Bool := decide (pi_pct < 100)
  let coding_uncoded := codingUncodedCount f
  let edrr_count := edrrOpenIssueCount f
  let is_clean : Bool :=
    missing_visits == 0 &&
    missing_pages == 0 &&
    open_queries == 0 &&
    non_conformant == 0 &&
    sae_discrepancies == 0 &&
    !sdv_incomplete &&
    !pi_incomplete
  let blockers : List Blocker :=
    (if 0 < missing_visits then [⟨"missing_visits", (missing_visits : ℚ), "high"⟩] else []) ++
    (if 0 < missing_pages then [⟨"missing_pages", (missing_pages : ℚ), "medium"⟩] else []) ++
    (if 0 < open_queries then [⟨"open_queries", (open_queries : ℚ), "medium"⟩] else []) ++
    (if 0 < non_conformant then [⟨"non_conformant", (non_conformant : ℚ), "medium"⟩] else []) ++
    (if 0 < sae_discrepancies then [⟨"sae_discrepancies", (sae_discrepancies : ℚ), "critical"⟩] else []) ++
    (if sdv_incomplete then [⟨"sdv_incomplete", 100 - sdv_pct, "high"⟩] else []) ++
    (if pi_incomplete then [⟨"pi_signature_incomplete", 100 - pi_pct, "high"⟩] else [])
  { is_clean := is_clean
    has_missing_visits := decide (0 < missing_visits)
    missing_visits_count := missing_visits
    has_missing_pages := decide (0 < missing_pages)
    missing_pages_count := missing_pages
    has_open_queries := decide (0 < open_queries)
    open_queries_count := open_queries
    has_non_conformant := decide (0 < non_conformant)
    non_conformant_count := non_conformant
    has_sae_discrepancies := decide (0 < sae_discrepancies)
    sae_discrepancy_count := sae_discrepancies
    sdv_incomplete := sdv_incomplete
    sdv_completion_pct := sdv_pct
    pi_signature_incomplete := pi_incomplete
    pi_signature_completion_pct := pi_pct
    has_coding_backlog := decide (0 < coding_uncoded)
    coding_uncoded_count := coding_uncoded
    has_edrr_issues := decide (0 < edrr_count)
    edrr_open_issue_count := edrr_count
    blockers := blockers }

/-- One `DQI_WEIGHT_CONFIG` row (apps/metrics/models.py); `metric_name`
carries a unique constraint in the data model. -/
structure WeightEntry where
  metric_name : String
  weight : ℚ
  is_active : Bool
deriving DecidableEq

/-- Models `weights.get(name, dflt)` where
`weights = {w.metric_name: w.weight for w in DQIWeightConfig.objects.filter(is_active=True)}`
(`metric_name` is unique, so the first active match is the only one).
-/
def wget (ws : List WeightEntry) (name : String) (dflt : ℚ) : ℚ :=
  match (ws.filter (fun w => w.is_active)).find? (fun w => w.metric_name == name) with
  | some w => w.weight
  | none => dflt

/-- The `MART_DQI_SCORE_SUBJECT` record (apps/metrics/models.py). -/
structure DQIScoreSubject where
  sae_unresolved_score : ℚ
  missing_visits_score : ℚ
  missing_pages_score : ℚ
  open_queries_score : ℚ
  non_conformant_score : ℚ
  sdv_incomplete_score : ℚ
  pi_signature_score : ℚ
  coding_backlog_score : ℚ
  edrr_issue_score : ℚ
  composite_dqi_score : ℚ
  risk_band : String
deriving DecidableEq

/-- Body of `Command._compute_dqi_subject`'s per-subject loop
(compute_metrics.py lines 152–224): normalizes each component of the
stored `CleanPatientStatus` to 0–100, combines them with the active
weights (documented defaults when a key is absent), rounds the
composite to 2 decimals and assigns the risk band.
-/
def compute_dqi_subject (ws : List WeightEntry) (cs : CleanPatientStatus) : DQIScoreSubject :=
  let sae_score : ℚ := min ((cs.sae_discrepancy_count : ℚ) * 25) 100
  let missing_visits_score : ℚ := min ((cs.missing_visits_count : ℚ) * 10) 100
  let missing_pages_score : ℚ := min ((cs.missing_pages_count : ℚ) * 5) 100
  let open_queries_score : ℚ := min ((cs.open_queries_count : ℚ) * 3) 100
  let non_conformant_score : ℚ := min ((cs.non_conformant_count : ℚ) * 5) 100
  let sdv_score : ℚ := 100 - cs.sdv_completion_pct
  let pi_sig_score : ℚ := 100 - cs.pi_signature_completion_pct
  let coding_score : ℚ := min ((cs.coding_uncoded_count : ℚ) * 2) 100
  let edrr_score : ℚ := min ((cs.edrr_open_issue_count : ℚ) * 5) 100
  let composite_dqi : ℚ :=
    sae_score * wget ws "sae_unresolved_count" (25/100) +
    missing_visits_score * wget ws "missing_visits_days_overdue" (15/100) +
    open_queries_score * wget ws "open_queries_count" (15/100) +
    missing_pages_score * wget ws "missing_pages_count" (10/100) +
    non_conformant_score * wget ws "non_conformant_count" (10/100) +
    sdv_score * wget ws "sdv_incomplete_pct" (10/100) +
    pi_sig_score * wget ws "pi_signature_incomplete_pct" (5/100) +
    coding_score * wget ws "coding_uncoded_count" (5/100) +
    edrr_score * wget ws "edrr_open_issue_count" (5/100)
  let risk_band : String :=
    if composite_dqi < 25 then "Low"
    else if composite_dqi < 50 then "Medium"
    else if composite_dqi < 75 then "High"
    else "Critical"
  { sae_unresolved_score := sae_score
    missing_visits_score := missing_visits_score
    missing_pages_score := missing_pages_score
    open_queries_score := open_queries_score
    non_conformant_score := non_conformant_score
    sdv_incomplete_score := sdv_score
    pi_signature_score := pi_sig_score
    coding_backlog_score := coding_score
    edrr_issue_score := edrr_score
    composite_dqi_score := round2 composite_dqi
    risk_band := risk_band }

/-- A subject with no fact rows at all. -/
def emptyFacts : SubjectFacts :=
  ⟨[], [], [], [], [], [], [], [], []⟩

/-- A subject whose only fact rows are a 100% SDV record and a 100%
PI-signature record (the fully clean configuration). -/
def cleanFacts : SubjectFacts :=
  ⟨[], [], [], [], [], [100], [100], [], []⟩

example : (compute_clean_status cleanFacts).is_clean = true := by decide
example : (compute_clean_status emptyFacts).is_clean = false := by decide
example : (compute_clean_status emptyFacts).blockers =
    [⟨"sdv_incomplete", 100, "high"⟩, ⟨"pi_signature_incomplete", 100, "high"⟩] := by
  norm_num [compute_clean_status, emptyFacts, sdvPct, piPct,
    missingVisitsCount, missingPagesCount, openQueriesCount, nonConformantCount,
    saeDiscrepanciesCount, codingUncodedCount, edrrOpenIssueCount]
example : (compute_dqi_subject [] (compute_clean_status emptyFacts)).composite_dqi_score = 15 := by
  norm_num [compute_dqi_subject, compute_clean_status, emptyFacts, sdvPct, piPct,
    missingVisitsCount, missingPagesCount, openQueriesCount, nonConformantCount,
    saeDiscrepanciesCount, codingUncodedCount, edrrOpenIssueCount, wget,
    round2, roundHalfEven]
example : round2 15 = 15 := by norm_num [round2, roundHalfEven]
example : round2 (100/3) = 3333/100 := by norm_num [round2, roundHalfEven]
example : roundHalfEven (5/2) = 2 := by norm_num [roundHalfEven]
example : roundHalfEven (7/2) = 4 := by norm_num [roundHalfEven]

/-- The `MART_DQI_SCORE_SITE` record (apps/metrics/models.py). -/
structure DQIScoreSite where
  total_subjects : ℕ
  clean_subjects : ℕ
  clean_percentage : ℚ
  composite_dqi_score : ℚ
  risk_band : String
deriving DecidableEq

/-- The `MART_DQI_SCORE_STUDY` record (apps/metrics/models.py);
`readiness_status` is a plain 50-character field with no `choices`
enumeration in the data model. -/
structure DQIScoreStudy where
  total_sites : ℕ
  total_subjects : ℕ
  clean_subjects : ℕ
  clean_percentage : ℚ
  composite_dqi_score : ℚ
  readiness_status : String
deriving DecidableEq

/-- One subject as the database sees it: its fact rows plus the two
derived mart records (absent until first computed). -/
structure SubjectData where
  facts : SubjectFacts
  cleanStatus : Option CleanPatientStatus
  dqiScore : Option DQIScoreSubject
deriving DecidableEq

/-- Membership test for
`CleanPatientStatus.objects.filter(subject__in=subjects, is_clean=True)` for one subject: a subject with no stored record is not
counted. -/
def subjectIsClean (sd : SubjectData) : Bool :=
  match sd.cleanStatus with
  | some cs => cs.is_clean
  | none => false

/-- Models the count of subjects whose stored status has `is_clean = true`. -/
def cleanSubjectsCount (subs : List SubjectData) : ℕ :=
  (subs.filter subjectIsClean).length

/-- The stored `composite_dqi_score` of every subject that has a
`DQIScoreSubject` record (Django `Avg` aggregates over existing rows). -/
def storedScores (subs : List SubjectData) : List ℚ :=
  (subs.filterMap (fun sd => sd.dqiScore)).map (fun d => d.composite_dqi_score)

/-- Models `aggregate(Avg('composite_dqi_score'))['...__avg'] or 0`:
`Avg` is `None` when there are no rows, and `or 0` turns it into 0. -/
def avgStoredScore (subs : List SubjectData) : ℚ :=
  let scores := storedScores subs
  if scores.length = 0 then 0 else scores.sum / (scores.length : ℚ)

/-- Models `(clean_subjects / total_subjects * 100) if total_subjects > 0 else 0`. -/
def cleanPercentageOf (subs : List SubjectData) : ℚ :=
  if 0 < subs.length then (cleanSubjectsCount subs : ℚ) / (subs.length : ℚ) * 100 else 0

/-- Body of `Command._compute_dqi_site`'s per-site loop for a site with
at least one subject (compute_metrics.py lines 226–268): counts the
site's subjects and its clean subjects, averages the stored subject
composites, rounds and assigns the risk band.
-/
def compute_dqi_site (subs : List SubjectData) : DQIScoreSite :=
  let total_subjects := subs.length
  let clean_subjects := cleanSubjectsCount subs
  let clean_pct := cleanPercentageOf subs
  let avg_dqi := avgStoredScore subs
  let risk_band : String :=
    if avg_dqi < 25 then "Low"
    else if avg_dqi < 50 then "Medium"
    else if avg_dqi < 75 then "High"
    else "Critical"
  { total_subjects := total_subjects
    clean_subjects := clean_subjects
    clean_percentage := round2 clean_pct
    composite_dqi_score := round2 avg_dqi
    risk_band := risk_band }

/-- Models `Command._compute_dqi_study` (compute_metrics.py lines 270–323):
study totals are recomputed directly from all subjects of the study (a
flat list, not the per-site aggregates), the composite is the flat mean
of the stored subject composites, and the readiness label is chosen by
thresholds on the clean percentage.
-/
def compute_dqi_study (total_sites : ℕ) (subs : List SubjectData) : DQIScoreStudy :=
  let total_subjects := subs.length
  let clean_subjects := cleanSubjectsCount subs
  let clean_pct := cleanPercentageOf subs
  let avg_dqi := avgStoredScore subs
  let readiness : String :=
    if 95 ≤ clean_pct then "Ready for Database Lock"
    else if 80 ≤ clean_pct then "Ready for Interim Analysis"
    else if 50 ≤ clean_pct then "In Progress"
    else "Not Ready"
  { total_sites := total_sites
    total_subjects := total_subjects
    clean_subjects := clean_subjects
    clean_percentage := round2 clean_pct
    composite_dqi_score := round2 avg_dqi
    readiness_status := readiness }

/-- One site of a study: its subjects and its mart record. -/
structure SiteData where
  subjects : List SubjectData
  siteScore : Option DQIScoreSite
deriving DecidableEq

/-- One study's slice of the database: its sites (every subject of the
study belongs to exactly one of them) and the study mart record. -/
structure StudyState where
  sites : List SiteData
  studyScore : Option DQIScoreStudy
deriving DecidableEq

/-- Step 1 of the per-study pass, effect on one subject:
`CleanPatientStatus.objects.update_or_create(subject=subject, defaults=...)`. -/
def stepCleanSubject (sd : SubjectData) : SubjectData :=
  { sd with cleanStatus := some (compute_clean_status sd.facts) }

/-- Step 1 of the per-study pass (`_compute_clean_status`): recompute
and overwrite every subject's clean status. -/
def stepCleanStatus (st : StudyState) : StudyState :=
  { st with
    sites := st.sites.map
      (fun site => { site with subjects := site.subjects.map stepCleanSubject }) }

/-- Step 2, effect on one subject: subjects with no stored clean status
are skipped (`if not clean_status: continue`), the rest get their
`DQIScoreSubject` overwritten. -/
def stepDQISubjectOne (ws : List WeightEntry) (sd : SubjectData) : SubjectData :=
  match sd.cleanStatus with
  | none => sd
  | some cs => { sd with dqiScore := some (compute_dqi_subject ws cs) }

/-- Step 2 of the per-study pass (`_compute_dqi_subject`). -/
def stepDQISubject (ws : List WeightEntry) (st : StudyState) : StudyState :=
  { st with
    sites := st.sites.map
      (fun site => { site with subjects := site.subjects.map (stepDQISubjectOne ws) }) }

/-- Step 3, effect on one site: a site with zero subjects is skipped
(`if total_subjects == 0: continue` — its stale record, if any, is left
in place), otherwise its `DQIScoreSite` is overwritten. -/
def stepDQISiteOne (site : SiteData) : SiteData :=
  if site.subjects.length = 0 then site
  else { site with siteScore := some (compute_dqi_site site.subjects) }

/-- Step 3 of the per-study pass (`_compute_dqi_site`). -/
def stepDQISite (st : StudyState) : StudyState :=
  { st with sites := st.sites.map stepDQISiteOne }

/-- Models `Subject.objects.filter(study=study)`: all subjects of the study. -/
def studySubjects (st : StudyState) : List SubjectData :=
  (st.sites.map (fun site => site.subjects)).flatten

/-- Step 4 of the per-study pass (`_compute_dqi_study`). -/
def stepDQIStudy (st : StudyState) : StudyState :=
  { st with studyScore := some (compute_dqi_study st.sites.length (studySubjects st)) }

/-- The per-study body of `Command.handle` (compute_metrics.py lines 41–54):
the four steps in order.  The command runs in Django autocommit mode —
there is no `transaction.atomic` anywhere in `compute_metrics.py` — so
each record write is committed as soon as it is issued; a run that
aborts after `k` completed steps leaves exactly the writes of those `k`
steps in the database (see `recomputeUpToStep`).
-/
def recomputeStudy (ws : List WeightEntry) (st : StudyState) : StudyState :=
  stepDQIStudy (stepDQISite (stepDQISubject ws (stepCleanStatus st)))

/-- The state left behind when the per-study pass aborts after its
first `k` steps: everything those steps wrote is already committed
(autocommit), nothing later was written. -/
def recomputeUpToStep (ws : List WeightEntry) (k : ℕ) (st : StudyState) : StudyState :=
  match k with
  | 0 => st
  | 1 => stepCleanStatus st
  | 2 => stepDQISubject ws (stepCleanStatus st)
  | 3 => stepDQISite (stepDQISubject ws (stepCleanStatus st))
  | _ => recomputeStudy ws st

/-- A subject whose only fact rows are one Resolved and one Closed SAE
discrepancy plus 100% SDV and PI-signature records. -/
def resolvedSaeFacts : SubjectFacts :=
  ⟨[], [], [], [], [⟨ResolutionStatus.Resolved⟩, ⟨ResolutionStatus.Closed⟩], [100], [100], [], []⟩

/-- C1: for every subject, the stored `is_clean` is true iff all seven
gating conditions hold on the stored counted facts — zero missing
visits, missing pages, open queries, non-conformant events and SAE
discrepancies, and 100% SDV and PI-signature completion.  Coding
backlog and EDRR issues do not appear among the conditions, and the
gate reads neither the composite score nor the risk band.
-/
theorem clean_gate_iff (f : SubjectFacts)
    (hs : sdvPct f ≤ 100) (hp : piPct f ≤ 100) :
    (compute_clean_status f).is_clean = true ↔
      ((compute_clean_status f).missing_visits_count = 0 ∧
       (compute_clean_status f).missing_pages_count = 0 ∧
       (compute_clean_status f).open_queries_count = 0 ∧
       (compute_clean_status f).non_conformant_count = 0 ∧
       (compute_clean_status f).sae_discrepancy_count = 0 ∧
       (compute_clean_status f).sdv_completion_pct = 100 ∧
       (compute_clean_status f).pi_signature_completion_pct = 100) := by
  simp only [compute_clean_status, Bool.and_eq_true, beq_iff_eq, Bool.not_eq_true',
    decide_eq_false_iff_not, not_lt, and_assoc]
  constructor
  · rintro ⟨h1, h2, h3, h4, h5, h6, h7⟩
    exact ⟨h1, h2, h3, h4, h5, le_antisymm hs h6, le_antisymm hp h7⟩
  · rintro ⟨h1, h2, h3, h4, h5, h6, h7⟩
    exact ⟨h1, h2, h3, h4, h5, le_of_eq h6.symm, le_of_eq h7.symm⟩

/-- Witness for `clean_gate_iff` at the concrete fully clean subject. -/
theorem clean_gate_iff_witness :
    sdvPct cleanFacts ≤ 100 ∧ piPct cleanFacts ≤ 100 ∧
      ((compute_clean_status cleanFacts).is_clean = true ↔
        ((compute_clean_status cleanFacts).missing_visits_count = 0 ∧
         (compute_clean_status cleanFacts).missing_pages_count = 0 ∧
         (compute_clean_status cleanFacts).open_queries_count = 0 ∧
         (compute_clean_status cleanFacts).non_conformant_count = 0 ∧
         (compute_clean_status cleanFacts).sae_discrepancy_count = 0 ∧
         (compute_clean_status cleanFacts).sdv_completion_pct = 100 ∧
         (compute_clean_status cleanFacts).pi_signature_completion_pct = 100)) :=
  ⟨by norm_num [sdvPct, cleanFacts], by norm_num [piPct, cleanFacts],
    clean_gate_iff cleanFacts (by norm_num [sdvPct, cleanFacts])
      (by norm_num [piPct, cleanFacts])⟩

/-- C10: the SAE-discrepancy count feeding both the clean gate and the SAE
sub-score counts every `SAEDiscrepancy` row of the subject with no
filter on `resolution_status`; a subject whose only SAE rows are
Resolved or Closed is still not clean and gets a positive
`sae_unresolved_score = min(count * 25, 100)`.
-/
theorem sae_count_ignores_resolution (ws : List WeightEntry) (f : SubjectFacts)
    (hne : f.saeRows ≠ [])
    (hres : ∀ r ∈ f.saeRows, r.resolution_status = ResolutionStatus.Resolved ∨
      r.resolution_status = ResolutionStatus.Closed) :
    (compute_clean_status f).sae_discrepancy_count = f.saeRows.length ∧
    (compute_clean_status f).is_clean = false ∧
    (compute_dqi_subject ws (compute_clean_status f)).sae_unresolved_score =
      min ((f.saeRows.length : ℚ) * 25) 100 ∧
    0 < (compute_dqi_subject ws (compute_clean_status f)).sae_unresolved_score := by
  have hlen : 0 < f.saeRows.length := List.length_pos.mpr hne
  refine ⟨rfl, ?_, rfl, ?_⟩
  · simp [compute_clean_status, saeDiscrepanciesCount, List.length_eq_zero, hne]
  · show 0 < min ((f.saeRows.length : ℚ) * 25) 100
    have h1 : (1 : ℚ) ≤ (f.saeRows.length : ℚ) := by exact_mod_cast hlen
    apply lt_min _ (by norm_num)
    linarith

/-- Witness for `sae_count_ignores_resolution` at the subject with two
closed-out SAE discrepancies. -/
theorem sae_count_ignores_resolution_witness :
    resolvedSaeFacts.saeRows ≠ [] ∧
    ((compute_clean_status resolvedSaeFacts).sae_discrepancy_count =
        resolvedSaeFacts.saeRows.length ∧
      (compute_clean_status resolvedSaeFacts).is_clean = false ∧
      (compute_dqi_subject [] (compute_clean_status resolvedSaeFacts)).sae_unresolved_score =
        min ((resolvedSaeFacts.saeRows.length : ℚ) * 25) 100 ∧
      0 < (compute_dqi_subject [] (compute_clean_status resolvedSaeFacts)).sae_unresolved_score) :=
  ⟨by decide,
    sae_count_ignores_resolution [] resolvedSaeFacts (by decide) (by decide)⟩

lemma abs_roundHalfEven_sub_le (x : ℚ) : |(roundHalfEven x : ℚ) - x| ≤ 1/2 := by
  have h0 : (⌊x⌋ : ℚ) ≤ x := Int.floor_le x
  have h1 : x < ⌊x⌋ + 1 := Int.lt_floor_add_one x
  simp only [roundHalfEven]
  split_ifs with ha hb hc
  · rw [abs_le]
    constructor <;> linarith
  · rw [abs_le]
    constructor <;> push_cast <;> linarith
  · rw [abs_le]
    constructor <;> linarith [not_lt.mp ha, not_lt.mp hb]
  · rw [abs_le]
    constructor <;> push_cast <;> linarith [not_lt.mp ha, not_lt.mp hb]

lemma abs_round2_sub_le (x : ℚ) : |round2 x - x| ≤ 1/200 := by
  have h := abs_roundHalfEven_sub_le (x * 100)
  have e : round2 x - x = ((roundHalfEven (x * 100) : ℚ) - x * 100) / 100 := by
    simp only [round2]
    ring
  rw [e, abs_div]
  rw [show |(100 : ℚ)| = 100 by norm_num]
  linarith

/-- The weighted sum of the 9 normalized sub-scores documented in §4.2 of
the spec, with the §4.1 default weight for every category that has no
active registry entry.  This is the exact (unrounded) quantity the
source stores after `round(..., 2)`.
-/
def weightedComposite (ws : List WeightEntry) (cs : CleanPatientStatus) : ℚ :=
  min ((cs.sae_discrepancy_count : ℚ) * 25) 100 * wget ws "sae_unresolved_count" (25/100) +
  min ((cs.missing_visits_count : ℚ) * 10) 100 * wget ws "missing_visits_days_overdue" (15/100) +
  min ((cs.open_queries_count : ℚ) * 3) 100 * wget ws "open_queries_count" (15/100) +
  min ((cs.missing_pages_count : ℚ) * 5) 100 * wget ws "missing_pages_count" (10/100) +
  min ((cs.non_conformant_count : ℚ) * 5) 100 * wget ws "non_conformant_count" (10/100) +
  (100 - cs.sdv_completion_pct) * wget ws "sdv_incomplete_pct" (10/100) +
  (100 - cs.pi_signature_completion_pct) * wget ws "pi_signature_incomplete_pct" (5/100) +
  min ((cs.coding_uncoded_count : ℚ) * 2) 100 * wget ws "coding_uncoded_count" (5/100) +
  min ((cs.edrr_open_issue_count : ℚ) * 5) 100 * wget ws "edrr_open_issue_count" (5/100)

/-- C2: for every subject scored by `_compute_dqi_subject` (counts are
natural numbers; completion percentages assumed in [0,100]), each of
the 9 sub-scores equals its documented formula and lies in [0,100];
the stored composite is the weighted sum of the 9 sub-scores (with the
documented default weight for every category lacking an active registry
entry) up to rounding, within 1/200 of the exact value; and the risk
band is assigned by half-open thresholds on the exact weighted sum, so
a composite of exactly 25 is Medium and exactly 75 is Critical.
-/
theorem dqi_subject_spec (ws : List WeightEntry) (cs : CleanPatientStatus)
    (hs0 : 0 ≤ cs.sdv_completion_pct) (hs1 : cs.sdv_completion_pct ≤ 100)
    (hp0 : 0 ≤ cs.pi_signature_completion_pct) (hp1 : cs.pi_signature_completion_pct ≤ 100) :
    (((compute_dqi_subject ws cs).sae_unresolved_score =
        min ((cs.sae_discrepancy_count : ℚ) * 25) 100 ∧
      0 ≤ (compute_dqi_subject ws cs).sae_unresolved_score ∧
      (compute_dqi_subject ws cs).sae_unresolved_score ≤ 100) ∧
     ((compute_dqi_subject ws cs).missing_visits_score =
        min ((cs.missing_visits_count : ℚ) * 10) 100 ∧
      0 ≤ (compute_dqi_subject ws cs).missing_visits_score ∧
      (compute_dqi_subject ws cs).missing_visits_score ≤ 100) ∧
     ((compute_dqi_subject ws cs).missing_pages_score =
        min ((cs.missing_pages_count : ℚ) * 5) 100 ∧
      0 ≤ (compute_dqi_subject ws cs).missing_pages_score ∧
      (compute_dqi_subject ws cs).missing_pages_score ≤ 100) ∧
     ((compute_dqi_subject ws cs).open_queries_score =
        min ((cs.open_queries_count : ℚ) * 3) 100 ∧
      0 ≤ (compute_dqi_subject ws cs).open_queries_score ∧
      (compute_dqi_subject ws cs).open_queries_score ≤ 100) ∧
     ((compute_dqi_subject ws cs).non_conformant_score =
        min ((cs.non_conformant_count : ℚ) * 5) 100 ∧
      0 ≤ (compute_dqi_subject ws cs).non_conformant_score ∧
      (compute_dqi_subject ws cs).non_conformant_score ≤ 100) ∧
     ((compute_dqi_subject ws cs).sdv_incomplete_score = 100 - cs.sdv_completion_pct ∧
      0 ≤ (compute_dqi_subject ws cs).sdv_incomplete_score ∧
      (compute_dqi_subject ws cs).sdv_incomplete_score ≤ 100) ∧
     ((compute_dqi_subject ws cs).pi_signature_score = 100 - cs.pi_signature_completion_pct ∧
      0 ≤ (compute_dqi_subject ws cs).pi_signature_score ∧
      (compute_dqi_subject ws cs).pi_signature_score ≤ 100) ∧
     ((compute_dqi_subject ws cs).coding_backlog_score =
        min ((cs.coding_uncoded_count : ℚ) * 2) 100 ∧
      0 ≤ (compute_dqi_subject ws cs).coding_backlog_score ∧
      (compute_dqi_subject ws cs).coding_backlog_score ≤ 100) ∧
     ((compute_dqi_subject ws cs).edrr_issue_score =
        min ((cs.edrr_open_issue_count : ℚ) * 5) 100 ∧
      0 ≤ (compute_dqi_subject ws cs).edrr_issue_score ∧
      (compute_dqi_subject ws cs).edrr_issue_score ≤ 100)) ∧
    ((compute_dqi_subject ws cs).composite_dqi_score = round2 (weightedComposite ws cs) ∧
     |(compute_dqi_subject ws cs).composite_dqi_score - weightedComposite ws cs| ≤ 1/200 ∧
     (compute_dqi_subject ws cs).risk_band =
       (if weightedComposite ws cs < 25 then "Low"
        else if weightedComposite ws cs < 50 then "Medium"
        else if weightedComposite ws cs < 75 then "High"
        else "Critical") ∧
     (weightedComposite ws cs = 25 → (compute_dqi_subject ws cs).risk_band = "Medium") ∧
     (weightedComposite ws cs = 75 → (compute_dqi_subject ws cs).risk_band = "Critical")) := by
  have ecomp : (compute_dqi_subject ws cs).composite_dqi_score =
      round2 (weightedComposite ws cs) := rfl
  have eband : (compute_dqi_subject ws cs).risk_band =
      (if weightedComposite ws cs < 25 then "Low"
       else if weightedComposite ws cs < 50 then "Medium"
       else if weightedComposite ws cs < 75 then "High"
       else "Critical") := rfl
  refine ⟨⟨⟨rfl, le_min (by positivity) (by norm_num), min_le_right _ _⟩,
    ⟨rfl, le_min (by positivity) (by norm_num), min_le_right _ _⟩,
    ⟨rfl, le_min (by positivity) (by norm_num), min_le_right _ _⟩,
    ⟨rfl, le_min (by positivity) (by norm_num), min_le_right _ _⟩,
    ⟨rfl, le_min (by positivity) (by norm_num), min_le_right _ _⟩,
    ⟨rfl, by show (0:ℚ) ≤ 100 - cs.sdv_completion_pct; linarith,
      by show (100:ℚ) - cs.sdv_completion_pct ≤ 100; linarith⟩,
    ⟨rfl, by show (0:ℚ) ≤ 100 - cs.pi_signature_completion_pct; linarith,
      by show (100:ℚ) - cs.pi_signature_completion_pct ≤ 100; linarith⟩,
    ⟨rfl, le_min (by positivity) (by norm_num), min_le_right _ _⟩,
    ⟨rfl, le_min (by positivity) (by norm_num), min_le_right _ _⟩⟩,
    ecomp, ?_, eband, ?_, ?_⟩
  · rw [ecomp]
    exact abs_round2_sub_le _
  · intro hc
    rw [eband, hc]
    norm_num
  · intro hc
    rw [eband, hc]
    norm_num

/-- Witness for `dqi_subject_spec` at the concrete fully clean subject
with an empty weight registry. -/
theorem dqi_subject_spec_witness :
    (0 : ℚ) ≤ (compute_clean_status cleanFacts).sdv_completion_pct ∧
    (compute_clean_status cleanFacts).sdv_completion_pct ≤ 100 ∧
    (compute_dqi_subject [] (compute_clean_status cleanFacts)).composite_dqi_score =
      round2 (weightedComposite [] (compute_clean_status cleanFacts)) :=
  ⟨by norm_num [compute_clean_status, cleanFacts, sdvPct],
   by norm_num [compute_clean_status, cleanFacts, sdvPct],
   (dqi_subject_spec [] (compute_clean_status cleanFacts)
      (by norm_num [compute_clean_status, cleanFacts, sdvPct])
      (by norm_num [compute_clean_status, cleanFacts, sdvPct])
      (by norm_num [compute_clean_status, cleanFacts, piPct])
      (by norm_num [compute_clean_status, cleanFacts, piPct])).2.1⟩

/-- C3 counterexample: a subject with no fact rows at all is *not* treated
as perfectly clean — the absent SDV and PI-signature records default
their completion to 0, so the gate fails and the composite is nonzero.
-/
theorem factless_subject_cex :
    (compute_clean_status emptyFacts).is_clean = false ∧
    (compute_dqi_subject [] (compute_clean_status emptyFacts)).composite_dqi_score ≠ 0 := by
  constructor
  · decide
  · norm_num [compute_dqi_subject, compute_clean_status, emptyFacts, sdvPct, piPct,
      missingVisitsCount, missingPagesCount, openQueriesCount, nonConformantCount,
      saeDiscrepanciesCount, codingUncodedCount, edrrOpenIssueCount, wget,
      round2, roundHalfEven]

/-- C3 amended: a subject with no fact rows gets all counts zero, but the
absent SDV and PI-signature records default to 0% completion, so
`is_clean = false`, the blockers list reports both incomplete-percentage
categories, and with no active weight entries (the documented default
weights) the composite score is 15, not 0.
-/
theorem factless_subject_defaults :
    (compute_clean_status emptyFacts).missing_visits_count = 0 ∧
    (compute_clean_status emptyFacts).missing_pages_count = 0 ∧
    (compute_clean_status emptyFacts).open_queries_count = 0 ∧
    (compute_clean_status emptyFacts).non_conformant_count = 0 ∧
    (compute_clean_status emptyFacts).sae_discrepancy_count = 0 ∧
    (compute_clean_status emptyFacts).coding_uncoded_count = 0 ∧
    (compute_clean_status emptyFacts).edrr_open_issue_count = 0 ∧
    (compute_clean_status emptyFacts).sdv_completion_pct = 0 ∧
    (compute_clean_status emptyFacts).pi_signature_completion_pct = 0 ∧
    (compute_clean_status emptyFacts).is_clean = false ∧
    (compute_clean_status emptyFacts).blockers =
      [⟨"sdv_incomplete", 100, "high"⟩, ⟨"pi_signature_incomplete", 100, "high"⟩] ∧
    (compute_dqi_subject [] (compute_clean_status emptyFacts)).composite_dqi_score = 15 := by
  refine ⟨rfl, rfl, rfl, rfl, rfl, rfl, rfl, ?_, ?_, by decide, ?_, ?_⟩
  · norm_num [compute_clean_status, emptyFacts, sdvPct]
  · norm_num [compute_clean_status, emptyFacts, piPct]
  · norm_num [compute_clean_status, emptyFacts, sdvPct, piPct,
      missingVisitsCount, missingPagesCount, openQueriesCount, nonConformantCount,
      saeDiscrepanciesCount, codingUncodedCount, edrrOpenIssueCount]
  · norm_num [compute_dqi_subject, compute_clean_status, emptyFacts, sdvPct, piPct,
      missingVisitsCount, missingPagesCount, openQueriesCount, nonConformantCount,
      saeDiscrepanciesCount, codingUncodedCount, edrrOpenIssueCount, wget,
      round2, roundHalfEven]

/-- A subject with a coding backlog and open EDRR issues but otherwise
ideal facts (100% SDV and PI signature, no other rows). -/
def codingOnlyFacts : SubjectFacts :=
  ⟨[], [], [], [], [], [100], [100], [⟨"Uncoded"⟩, ⟨"Uncoded"⟩, ⟨"Pending"⟩], [4]⟩

/-- C7 counterexample: a subject with an active coding backlog (3 uncoded
items) and active EDRR issues (4 open) gets an *empty* blockers list —
the source never appends coding-backlog or EDRR entries to
`blockers_json`, it only stores their counts in dedicated fields.
-/
theorem blockers_coding_edrr_cex :
    (compute_clean_status codingOnlyFacts).has_coding_backlog = true ∧
    (compute_clean_status codingOnlyFacts).coding_uncoded_count = 3 ∧
    (compute_clean_status codingOnlyFacts).has_edrr_issues = true ∧
    (compute_clean_status codingOnlyFacts).edrr_open_issue_count = 4 ∧
    (compute_clean_status codingOnlyFacts).blockers = [] := by
  refine ⟨rfl, rfl, rfl, rfl, ?_⟩
  norm_num [compute_clean_status, codingOnlyFacts, sdvPct, piPct,
    missingVisitsCount, missingPagesCount, openQueriesCount, nonConformantCount,
    saeDiscrepanciesCount, codingUncodedCount, edrrOpenIssueCount]

/-- Number of entries of a given `type` in a blockers list. -/
def countType (l : List Blocker) (t : String) : ℕ :=
  (l.filter (fun b => b.type == t)).length

lemma countType_append (l₁ l₂ : List Blocker) (t : String) :
    countType (l₁ ++ l₂) t = countType l₁ t + countType l₂ t := by
  simp [countType, List.filter_append]

lemma countType_ite_singleton (c : Prop) [Decidable c] (b : Blocker) (t : String) :
    countType (if c then [b] else []) t = if c then countType [b] t else 0 := by
  split_ifs <;> rfl

lemma countType_singleton (s : String) (q : ℚ) (sev t : String) :
    countType [⟨s, q, sev⟩] t = if s == t then 1 else 0 := by
  cases h : s == t <;> simp [countType, List.filter_cons, h]

lemma mem_ite_singleton {α : Type} (c : Prop) [Decidable c] (a b : α) :
    a ∈ (if c then [b] else []) ↔ c ∧ a = b := by
  split_ifs with h <;> simp [h]

/-- C7 amended: the stored blockers list has exactly one entry per *active*
category among the seven gate-related ones (counts > 0, or completion
below 100 for the two percentage categories), each carrying its fixed
severity (`sae_discrepancies` → critical; `missing_visits`,
`sdv_incomplete`, `pi_signature_incomplete` → high; the rest → medium);
coding backlog and EDRR issues never contribute an entry even when
present.
-/
theorem blockers_characterization (f : SubjectFacts) :
    (countType (compute_clean_status f).blockers "missing_visits" =
      if 0 < (compute_clean_status f).missing_visits_count then 1 else 0) ∧
    (countType (compute_clean_status f).blockers "missing_pages" =
      if 0 < (compute_clean_status f).missing_pages_count then 1 else 0) ∧
    (countType (compute_clean_status f).blockers "open_queries" =
      if 0 < (compute_clean_status f).open_queries_count then 1 else 0) ∧
    (countType (compute_clean_status f).blockers "non_conformant" =
      if 0 < (compute_clean_status f).non_conformant_count then 1 else 0) ∧
    (countType (compute_clean_status f).blockers "sae_discrepancies" =
      if 0 < (compute_clean_status f).sae_discrepancy_count then 1 else 0) ∧
    (countType (compute_clean_status f).blockers "sdv_incomplete" =
      if (compute_clean_status f).sdv_completion_pct < 100 then 1 else 0) ∧
    (countType (compute_clean_status f).blockers "pi_signature_incomplete" =
      if (compute_clean_status f).pi_signature_completion_pct < 100 then 1 else 0) ∧
    countType (compute_clean_status f).blockers "coding_backlog" = 0 ∧
    countType (compute_clean_status f).blockers "edrr_issues" = 0 ∧
    (∀ b ∈ (compute_clean_status f).blockers,
      b.severity =
        if b.type = "sae_discrepancies" then "critical"
        else if b.type = "missing_visits" ∨ b.type = "sdv_incomplete" ∨
          b.type = "pi_signature_incomplete" then "high"
        else "medium") := by
  simp only [compute_clean_status, decide_eq_true_eq]
  refine ⟨?_, ?_, ?_, ?_, ?_, ?_, ?_, ?_, ?_, ?_⟩
  case _ => simp [countType_append, countType_ite_singleton, countType_singleton]
  case _ => simp [countType_append, countType_ite_singleton, countType_singleton]
  case _ => simp [countType_append, countType_ite_singleton, countType_singleton]
  case _ => simp [countType_append, countType_ite_singleton, countType_singleton]
  case _ => simp [countType_append, countType_ite_singleton, countType_singleton]
  case _ => simp [countType_append, countType_ite_singleton, countType_singleton]
  case _ => simp [countType_append, countType_ite_singleton, countType_singleton]
  case _ => simp [countType_append, countType_ite_singleton, countType_singleton]
  case _ => simp [countType_append, countType_ite_singleton, countType_singleton]
  case _ =>
    intro b hb
    simp only [List.mem_append, mem_ite_singleton] at hb
    rcases hb with ((((((⟨h, rfl⟩ | ⟨h, rfl⟩) | ⟨h, rfl⟩) | ⟨h, rfl⟩) | ⟨h, rfl⟩) |
      ⟨h, rfl⟩) | ⟨h, rfl⟩) <;> simp

/-- Arithmetic mean of a list of rationals (0 for the empty list, since
`q / 0 = 0` in `ℚ`). -/
def listMean (l : List ℚ) : ℚ := l.sum / (l.length : ℚ)

lemma avgStoredScore_eq_listMean (subs : List SubjectData) :
    avgStoredScore subs = listMean (storedScores subs) := by
  simp only [avgStoredScore, listMean]
  split_ifs with h
  · rw [List.length_eq_zero.mp h]
    simp
  · rfl

/-- A fully clean subject as stored after a pass with no active weights. -/
def demoCleanSubject : SubjectData :=
  ⟨cleanFacts, some (compute_clean_status cleanFacts),
    some (compute_dqi_subject [] (compute_clean_status cleanFacts))⟩

/-- A factless (hence not clean) subject as stored after the same pass. -/
def demoDirtySubject : SubjectData :=
  ⟨emptyFacts, some (compute_clean_status emptyFacts),
    some (compute_dqi_subject [] (compute_clean_status emptyFacts))⟩

/-- A stored subject score record with a given composite value. -/
def mkScore (q : ℚ) : DQIScoreSubject := ⟨0, 0, 0, 0, 0, 0, 0, 0, 0, q, "Low"⟩

/-- A subject whose stored score record carries a given composite. -/
def subjWithScore (q : ℚ) : SubjectData := ⟨emptyFacts, none, some (mkScore q)⟩

/-- A site with no subjects and no stored score. -/
def emptySite : SiteData := ⟨[], none⟩

/-- C6 counterexample: a site with 3 subjects of which 1 is clean stores
`clean_percentage = 33.33` (rounded to two decimals), which is not equal
to the exact value `100 * 1 / 3`.
-/
theorem site_clean_percentage_cex :
    (compute_dqi_site [demoCleanSubject, demoDirtySubject, demoDirtySubject]).clean_percentage ≠
      100 * (cleanSubjectsCount [demoCleanSubject, demoDirtySubject, demoDirtySubject] : ℚ) /
        (([demoCleanSubject, demoDirtySubject, demoDirtySubject] : List SubjectData).length : ℚ) := by
  have hclean : cleanSubjectsCount [demoCleanSubject, demoDirtySubject, demoDirtySubject] = 1 := by
    decide
  have e1 : (compute_dqi_site
      [demoCleanSubject, demoDirtySubject, demoDirtySubject]).clean_percentage = 3333/100 := by
    show round2 (cleanPercentageOf [demoCleanSubject, demoDirtySubject, demoDirtySubject]) =
      3333/100
    rw [show cleanPercentageOf [demoCleanSubject, demoDirtySubject, demoDirtySubject] = 100/3 by
      simp [cleanPercentageOf, hclean]
      norm_num]
    norm_num [round2, roundHalfEven]
  rw [e1, hclean]
  norm_num

/-- C6 amended: for every site with at least one subject, the stored
`clean_percentage` equals `100 * clean_subjects / total_subjects`
rounded half-even to two decimals, with `clean_subjects` the count of
the site's subjects whose stored status is clean and `total_subjects`
all its subjects; a site with zero subjects is skipped, leaving its
(possibly absent) record untouched.
-/
theorem site_rollup_spec (subs : List SubjectData) (hne : subs ≠ []) :
    ((compute_dqi_site subs).total_subjects = subs.length ∧
     (compute_dqi_site subs).clean_subjects = cleanSubjectsCount subs ∧
     (compute_dqi_site subs).clean_percentage =
       round2 (100 * (cleanSubjectsCount subs : ℚ) / (subs.length : ℚ))) ∧
    (∀ site : SiteData, site.subjects = [] → stepDQISiteOne site = site) := by
  refine ⟨⟨rfl, rfl, ?_⟩, ?_⟩
  · show round2 (cleanPercentageOf subs) = _
    have hpos : 0 < subs.length := List.length_pos.mpr hne
    rw [cleanPercentageOf, if_pos hpos]
    ring_nf
  · intro site h
    simp [stepDQISiteOne, h]

/-- Witness for `site_rollup_spec` at a one-subject site. -/
theorem site_rollup_spec_witness :
    ([demoCleanSubject] : List SubjectData) ≠ [] ∧
    (compute_dqi_site [demoCleanSubject]).clean_percentage =
      round2 (100 * (cleanSubjectsCount [demoCleanSubject] : ℚ) /
        (([demoCleanSubject] : List SubjectData).length : ℚ)) ∧
    stepDQISiteOne emptySite = emptySite :=
  ⟨by decide, (site_rollup_spec [demoCleanSubject] (by decide)).1.2.2,
    (site_rollup_spec [demoCleanSubject] (by decide)).2 emptySite rfl⟩

/-- C4: the study-level composite is the (rounded) flat mean of the stored
composite scores of all subjects of the study — pooled across sites —
and for a concrete two-site study with unequal subject counts (scores
0, 0 at one site and 30 at the other) it differs from the mean of the
two per-site averages: flat mean 10 versus mean-of-site-averages 15.
-/
theorem study_composite_flat_mean :
    (∀ (n : ℕ) (siteSubjects : List (List SubjectData)),
      (compute_dqi_study n siteSubjects.flatten).composite_dqi_score =
        round2 (listMean (storedScores siteSubjects.flatten))) ∧
    (compute_dqi_study 2 ([subjWithScore 0, subjWithScore 0] ++ [subjWithScore 30])).composite_dqi_score = 10 ∧
    round2 (listMean [(compute_dqi_site [subjWithScore 0, subjWithScore 0]).composite_dqi_score,
      (compute_dqi_site [subjWithScore 30]).composite_dqi_score]) = 15 ∧
    ((10 : ℚ) ≠ 15) := by
  refine ⟨?_, ?_, ?_, by norm_num⟩
  · intro n siteSubjects
    show round2 (avgStoredScore _) = _
    rw [avgStoredScore_eq_listMean]
  · show round2 (avgStoredScore _) = 10
    rw [show avgStoredScore ([subjWithScore 0, subjWithScore 0] ++ [subjWithScore 30]) = 10 by
      simp [avgStoredScore, storedScores, subjWithScore, mkScore]
      norm_num]
    norm_num [round2, roundHalfEven]
  · rw [show (compute_dqi_site [subjWithScore 0, subjWithScore 0]).composite_dqi_score = 0 by
      show round2 (avgStoredScore _) = 0
      rw [show avgStoredScore [subjWithScore 0, subjWithScore 0] = 0 by
        simp [avgStoredScore, storedScores, subjWithScore, mkScore]]
      norm_num [round2, roundHalfEven]]
    rw [show (compute_dqi_site [subjWithScore 30]).composite_dqi_score = 30 by
      show round2 (avgStoredScore _) = 30
      rw [show avgStoredScore [subjWithScore 30] = 30 by
        simp [avgStoredScore, storedScores, subjWithScore, mkScore]]
      norm_num [round2, roundHalfEven]]
    rw [show listMean [(0 : ℚ), 30] = 15 by
      simp [listMean]
      norm_num]
    norm_num [round2, roundHalfEven]

/-- C4 counterexample: for a study whose three subjects carry stored
composite scores 0, 0 and 10, the stored study composite is the rounded
value 3.33, not the exact flat mean 10/3 — so the stored field does not
equal the flat mean exactly.
-/
theorem study_flat_mean_cex :
    (compute_dqi_study 1
        [subjWithScore 0, subjWithScore 0, subjWithScore 10]).composite_dqi_score ≠
      listMean (storedScores [subjWithScore 0, subjWithScore 0, subjWithScore 10]) := by
  have e1 : (compute_dqi_study 1
      [subjWithScore 0, subjWithScore 0, subjWithScore 10]).composite_dqi_score = 333/100 := by
    show round2 (avgStoredScore _) = 333/100
    rw [show avgStoredScore [subjWithScore 0, subjWithScore 0, subjWithScore 10] = 10/3 by
      simp [avgStoredScore, storedScores, subjWithScore, mkScore]]
    norm_num [round2, roundHalfEven]
  have e2 : listMean (storedScores [subjWithScore 0, subjWithScore 0, subjWithScore 10]) =
      10/3 := by
    simp [listMean, storedScores, subjWithScore, mkScore]
  rw [e1, e2]
  norm_num

/-- C5 counterexample: a fully clean one-subject study gets
`readiness_status = "Ready for Database Lock"`, which is none of the
four values the claim enumerates ("Ready for Lock", "Ready for Interim
Analysis", "In Progress", "Not Ready").
-/
theorem readiness_value_cex :
    (compute_dqi_study 1 [demoCleanSubject]).readiness_status = "Ready for Database Lock" ∧
    ¬ ((compute_dqi_study 1 [demoCleanSubject]).readiness_status = "Ready for Lock" ∨
       (compute_dqi_study 1 [demoCleanSubject]).readiness_status = "Ready for Interim Analysis" ∨
       (compute_dqi_study 1 [demoCleanSubject]).readiness_status = "In Progress" ∨
       (compute_dqi_study 1 [demoCleanSubject]).readiness_status = "Not Ready") := by
  have hpct : cleanPercentageOf [demoCleanSubject] = 100 := by
    have : cleanSubjectsCount [demoCleanSubject] = 1 := by decide
    simp [cleanPercentageOf, this]
  have e : (compute_dqi_study 1 [demoCleanSubject]).readiness_status =
      "Ready for Database Lock" := by
    show (if 95 ≤ cleanPercentageOf [demoCleanSubject] then "Ready for Database Lock"
      else if 80 ≤ cleanPercentageOf [demoCleanSubject] then "Ready for Interim Analysis"
      else if 50 ≤ cleanPercentageOf [demoCleanSubject] then "In Progress"
      else "Not Ready") = "Ready for Database Lock"
    rw [hpct]
    norm_num
  rw [e]
  exact ⟨rfl, by decide⟩

/-- C5 amended: the written `readiness_status` is chosen by thresholds on
the study clean percentage (`≥95`, `≥80`, `≥50`, otherwise) and is
always one of "Ready for Database Lock", "Ready for Interim Analysis",
"In Progress", "Not Ready".
-/
theorem readiness_spec (n : ℕ) (subs : List SubjectData) :
    (compute_dqi_study n subs).readiness_status =
      (if 95 ≤ cleanPercentageOf subs then "Ready for Database Lock"
       else if 80 ≤ cleanPercentageOf subs then "Ready for Interim Analysis"
       else if 50 ≤ cleanPercentageOf subs then "In Progress"
       else "Not Ready") ∧
    ((compute_dqi_study n subs).readiness_status = "Ready for Database Lock" ∨
     (compute_dqi_study n subs).readiness_status = "Ready for Interim Analysis" ∨
     (compute_dqi_study n subs).readiness_status = "In Progress" ∨
     (compute_dqi_study n subs).readiness_status = "Not Ready") := by
  have e : (compute_dqi_study n subs).readiness_status =
      (if 95 ≤ cleanPercentageOf subs then "Ready for Database Lock"
       else if 80 ≤ cleanPercentageOf subs then "Ready for Interim Analysis"
       else if 50 ≤ cleanPercentageOf subs then "In Progress"
       else "Not Ready") := rfl
  refine ⟨e, ?_⟩
  rw [e]
  split_ifs <;> simp

/-- Combined effect of steps 1–2 on one subject: both derived records
become functions of the subject's facts alone. -/
def procSub (ws : List WeightEntry) (f : SubjectFacts) : SubjectData :=
  ⟨f, some (compute_clean_status f),
    some (compute_dqi_subject ws (compute_clean_status f))⟩

@[simp] lemma subj_pass_eq (ws : List WeightEntry) (sd : SubjectData) :
    stepDQISubjectOne ws (stepCleanSubject sd) = procSub ws sd.facts := rfl

/-- Combined effect of steps 1–3 on one site. -/
def passSite (ws : List WeightEntry) (site : SiteData) : SiteData :=
  stepDQISiteOne { site with subjects := site.subjects.map (fun sd => procSub ws sd.facts) }

lemma passSite_subjects (ws : List WeightEntry) (site : SiteData) :
    (passSite ws site).subjects = site.subjects.map (fun sd => procSub ws sd.facts) := by
  simp only [passSite, stepDQISiteOne]
  split_ifs <;> rfl

lemma map_procSub_idem (ws : List WeightEntry) (l : List SubjectData) :
    (l.map (fun sd => procSub ws sd.facts)).map (fun sd => procSub ws sd.facts) =
      l.map (fun sd => procSub ws sd.facts) := by
  simp [List.map_map, Function.comp, procSub]

lemma stepDQISiteOne_idem (site : SiteData) :
    stepDQISiteOne (stepDQISiteOne site) = stepDQISiteOne site := by
  by_cases h : site.subjects.length = 0
  · simp [stepDQISiteOne, h]
  · simp [stepDQISiteOne, h]

lemma passSite_idem (ws : List WeightEntry) (site : SiteData) :
    passSite ws (passSite ws site) = passSite ws site := by
  have hsub : (passSite ws site).subjects.map (fun sd => procSub ws sd.facts) =
      (passSite ws site).subjects := by
    rw [passSite_subjects]
    exact map_procSub_idem ws site.subjects
  calc passSite ws (passSite ws site)
      = stepDQISiteOne { passSite ws site with
          subjects := (passSite ws site).subjects.map (fun sd => procSub ws sd.facts) } := rfl
    _ = stepDQISiteOne { passSite ws site with subjects := (passSite ws site).subjects } := by
        rw [hsub]
    _ = stepDQISiteOne (passSite ws site) := rfl
    _ = passSite ws site := by
        simp only [passSite]
        exact stepDQISiteOne_idem _

lemma recompute_normal_form (ws : List WeightEntry) (st : StudyState) :
    recomputeStudy ws st =
      ⟨st.sites.map (passSite ws),
        some (compute_dqi_study (st.sites.map (passSite ws)).length
          (((st.sites.map (passSite ws)).map (fun site => site.subjects)).flatten))⟩ := by
  simp [recomputeStudy, stepDQIStudy, stepDQISite, stepDQISubject, stepCleanStatus,
    studySubjects, passSite, List.map_map, Function.comp_def]

/-- C8: the per-study recompute is idempotent — with unchanged fact rows
and unchanged weight configuration, running the four-step pass a second
time reproduces exactly the same CleanStatus, SubjectScore, SiteScore
and StudyScore records (the whole study state is unchanged).
-/
theorem recompute_idempotent (ws : List WeightEntry) (st : StudyState) :
    recomputeStudy ws (recomputeStudy ws st) = recomputeStudy ws st := by
  have hmap : (st.sites.map (passSite ws)).map (passSite ws) = st.sites.map (passSite ws) := by
    rw [List.map_map]
    congr 1
    funext site
    exact passSite_idem ws site
  rw [recompute_normal_form ws (recomputeStudy ws st), recompute_normal_form ws st]
  simp only [hmap]

/-- Witness for `recompute_idempotent` at a concrete one-site study. -/
theorem recompute_idempotent_witness :
    recomputeStudy [] (recomputeStudy [] ⟨[⟨[⟨emptyFacts, none, none⟩], none⟩], none⟩) =
      recomputeStudy [] ⟨[⟨[⟨emptyFacts, none, none⟩], none⟩], none⟩ :=
  recompute_idempotent [] ⟨[⟨[⟨emptyFacts, none, none⟩], none⟩], none⟩

/-- A stale study score, standing for the record of a previous run. -/
def staleStudyScore : DQIScoreStudy := ⟨1, 1, 0, 0, 0, "Not Ready"⟩

/-- A one-site study before a run: one never-computed subject and a
stale study record from run N−1. -/
def preFaultState : StudyState :=
  ⟨[⟨[⟨emptyFacts, none, none⟩], none⟩], some staleStudyScore⟩

/-- C9: `compute_metrics` runs in autocommit with no per-study transaction,
so a pass that aborts after `_compute_clean_status` (e.g. a fault in a
later step) leaves the database changed — the fresh CleanStatus write is
already committed while the StudyScore still holds the stale record of
the previous run, contradicting the all-or-nothing requirement.
-/
theorem abort_leaves_partial_writes :
    recomputeUpToStep [] 1 preFaultState ≠ preFaultState ∧
    (recomputeUpToStep [] 1 preFaultState).studyScore = some staleStudyScore := by
  constructor
  · intro h
    have h2 := congrArg
      (fun s => s.sites.map (fun site => site.subjects.map (fun sd => sd.cleanStatus.isSome))) h
    simp [recomputeUpToStep, stepCleanStatus, stepCleanSubject, preFaultState] at h2
  · rfl

end CleanTrial
